import Mathlib

/-!
Shallow embedding of `scripts/xid-gen-catelog.py`, the build-time generator
that reads an XID catalog spreadsheet and emits Go data tables.

Modelling conventions:
* Python strings are Lean `String` (a list of characters); the ASCII fragment
  of `str.isdigit` / `str.strip` is modelled, which is the domain the script
  operates on.
* Python exceptions (`list.index` misses, `int` parse failures, out-of-range
  list subscripts) are modelled by `Option`: a raised exception that
  propagates out of a function is `none`.
* The `datetime.utcnow()` timestamp, the only effectful input of `write_go`,
  is passed as an explicit argument.
-/

namespace XidGen

/-- Characters stripped by Python `str.strip()` (ASCII fragment). -/
def pySpace (c : Char) : Bool :=
  c = ' ' || c = '\t' || c = '\n' || c = '\r' || c = '\x0b' || c = '\x0c'

/-- Python `str.strip()` on the character list: drop leading and trailing whitespace. -/
def stripChars (l : List Char) : List Char :=
  ((l.dropWhile pySpace).reverse.dropWhile pySpace).reverse

/-- Python `str.strip()` (ASCII fragment). -/
def pyStrip (s : String) : String :=
  String.mk (stripChars s.data)

/-- Python `str.isdigit()` restricted to ASCII decimal digits: the string is
non-empty and every character is a decimal digit. -/
def pyIsDigitStr (s : String) : Bool :=
  !s.data.isEmpty && s.data.all Char.isDigit

/-- Python `int(s)` on a string of decimal digits: base-10 value. -/
def digitsToNat (s : String) : Nat :=
  s.data.foldl (fun n c => 10 * n + (c.toNat - 48)) 0

/-- Value of one hexadecimal digit character, as accepted by Python `int(_, 16)`. -/
def hexVal (c : Char) : Option Nat :=
  if c.isDigit then some (c.toNat - 48)
  else if 'a' ≤ c ∧ c ≤ 'f' then some (c.toNat - 87)
  else if 'A' ≤ c ∧ c ≤ 'F' then some (c.toNat - 55)
  else none

/-- Digit-run accumulator for Python `int(_, base)`: after the first digit,
each further character is a digit or a single underscore followed by a digit. -/
def digitRun (dv : Char → Option Nat) (base : Nat) : Nat → List Char → Option Nat
  | acc, [] => some acc
  | acc, '_' :: c :: cs =>
    match dv c with
    | some d => digitRun dv base (base * acc + d) cs
    | none => none
  | acc, c :: cs =>
    match dv c with
    | some d => digitRun dv base (base * acc + d) cs
    | none => none

/-- Digit part of Python `int(_, base)`: non-empty, starts with a digit. -/
def digitBody (dv : Char → Option Nat) (base : Nat) : List Char → Option Nat
  | [] => none
  | c :: cs =>
    match dv c with
    | some d => digitRun dv base d cs
    | none => none

/-- Optional sign, as accepted by Python `int`. -/
def splitSign : List Char → Int × List Char
  | '+' :: r => (1, r)
  | '-' :: r => (-1, r)
  | r => (1, r)

/-- Python `int(s, 16)`: optional surrounding whitespace, optional sign,
optional `0x`/`0X` prefix (an underscore may directly follow the prefix),
then hexadecimal digits with single underscores between digits.
Raising `ValueError` is modelled as `none`. -/
def pyIntHex (s : String) : Option Int :=
  let (sign, cs) := splitSign (stripChars s.data)
  let body :=
    match cs with
    | '0' :: 'x' :: r => (match r with | '_' :: r2 => digitBody hexVal 16 r2 | _ => digitBody hexVal 16 r)
    | '0' :: 'X' :: r => (match r with | '_' :: r2 => digitBody hexVal 16 r2 | _ => digitBody hexVal 16 r)
    | r => digitBody hexVal 16 r
  match body with
  | some n => some (sign * Int.ofNat n)
  | none => none

/-- Value of one decimal digit character. -/
def decVal (c : Char) : Option Nat :=
  if c.isDigit then some (c.toNat - 48) else none

/-- Python `int(s)` (base 10): optional surrounding whitespace, optional sign,
decimal digits with single underscores between digits. -/
def pyIntDec (s : String) : Option Int :=
  let (sign, cs) := splitSign (stripChars s.data)
  match digitBody decVal 10 cs with
  | some n => some (sign * Int.ofNat n)
  | none => none

/-- Python single-character `str.replace(pat, rep)` on character lists. -/
def replaceChar (pat : Char) (rep : List Char) : List Char → List Char
  | [] => []
  | c :: cs => (if c = pat then rep else [c]) ++ replaceChar pat rep cs

/-- The three successive replacements of `escape_go_string`:
backslash, then double quote, then newline. -/
def escapeChars (l : List Char) : List Char :=
  replaceChar '\n' ['\\', 'n']
    (replaceChar '\"' ['\\', '\"']
      (replaceChar '\\' ['\\', '\\'] l))

/-- The script's `escape_go_string`: replace backslash with double backslash,
then double quote with backslash-quote, then newline with the two characters
backslash-`n`, and wrap the result in double quotes. -/
def escape_go_string (value : String) : String :=
  String.mk ('\"' :: escapeChars value.data ++ ['\"'])

/-- Decoder for the body of an interpreted string literal, restricted to the
escapes the generator can emit: backslash-backslash, backslash-quote,
backslash-`n`; an unescaped quote, an unescaped newline, or a dangling or
unknown escape is invalid. -/
def decodeBody : List Char → Option (List Char)
  | [] => some []
  | c :: cs =>
    if c = '\\' then
      match cs with
      | [] => none
      | d :: ds =>
        if d = '\\' then (decodeBody ds).map (fun t => '\\' :: t)
        else if d = '\"' then (decodeBody ds).map (fun t => '\"' :: t)
        else if d = 'n' then (decodeBody ds).map (fun t => '\n' :: t)
        else none
    else if c = '\"' then none
    else if c = '\n' then none
    else (decodeBody cs).map (fun t => c :: t)

/-- Decode a quoted string literal under standard interpreted-literal rules:
a double quote, a body with escapes, a closing double quote. -/
def decodeGoLiteral (s : String) : Option String :=
  match s.data with
  | [] => none
  | c :: rest =>
    if c = '\"' then
      if rest.getLast? = some '\"' then (decodeBody rest.dropLast).map String.mk else none
    else none

/-! ## Sheet parsing (`load_shared_strings` consumer side and `read_sheet`) -/

/-- One worksheet cell as seen by `read_sheet`: the optional `t` attribute and
the optional `v` child element, whose text is itself optional. -/
structure SheetCell where
  t : Option String
  v : Option (Option String)
deriving DecidableEq

/-- Python list subscript `l[i]` with negative-index wrap-around; an
`IndexError` is `none`. -/
def pyListGet (l : List String) (i : Int) : Option String :=
  if 0 ≤ i then l.get? i.toNat
  else if i.natAbs ≤ l.length then l.get? (l.length - i.natAbs)
  else none

/-- The shared-string lookup of `read_sheet`: `int(v.text)` followed by
`shared_strings[idx]`; a `TypeError` on `None` text, a `ValueError` on
non-numeric text, or an `IndexError` on an out-of-range index is `none`. -/
def sharedLookup (shared : List String) (vtext : Option String) : Option String :=
  (vtext.bind pyIntDec).bind (fun i => pyListGet shared i)

/-- One cell of `read_sheet`: a missing `v` element yields the empty string; a
cell typed `s` resolves through the shared-string table; otherwise the literal
text (or the empty string when the text is absent) is used. -/
def readCell (shared : List String) (c : SheetCell) : Option String :=
  match c.v with
  | none => some ""
  | some vtext =>
    if c.t = some "s" then sharedLookup shared vtext
    else some (vtext.getD "")

/-- One row of `read_sheet`: each cell in document order. -/
def readRow (shared : List String) (cells : List SheetCell) : Option (List String) :=
  cells.mapM (readCell shared)

/-- The script's `read_sheet`: rows in document order, rows with zero cells
skipped; any exception from a cell propagates (`none`). -/
def readSheet (shared : List String) (sheet : List (List SheetCell)) :
    Option (List (List String)) :=
  (sheet.mapM (readRow shared)).map (List.filter (fun r => !r.isEmpty))

/-! ## The catalog entry builder (`build_catalog_entries`) -/

/-- A Catalog Entry record. -/
structure CatalogEntry where
  code : Nat
  mnemonic : String
  description : String
  immediate : String
  investigatory : String
deriving DecidableEq

/-- Pad a row to the header width with empty strings, as both builders do. -/
def padRow (header row : List String) : List String :=
  row ++ List.replicate (header.length - row.length) ""

/-- Resolved column indices of the catalog sheet. -/
structure CatalogCols where
  iType : Nat
  iCode : Nat
  iMnemonic : Nat
  iDesc : Nat
  iImm : Nat
  iInv : Nat
deriving DecidableEq

/-- The required column names of the catalog sheet, in the order
`build_catalog_entries` resolves them. -/
def catalogRequiredCols : List String :=
  ["Type \n(XID)", "Code", "Mnemonic", "Description",
   "Resolution Bucket \n(Immediate Action)",
   "Resolution Bucket \n(Investigatory Action)"]

/-- The `header.index(...)` calls of `build_catalog_entries`; a `ValueError`
on a missing column is `none`. -/
def resolveCatalogCols (header : List String) : Option CatalogCols :=
  (header.findIdx? (· == "Type \n(XID)")).bind fun iType =>
  (header.findIdx? (· == "Code")).bind fun iCode =>
  (header.findIdx? (· == "Mnemonic")).bind fun iMnemonic =>
  (header.findIdx? (· == "Description")).bind fun iDesc =>
  (header.findIdx? (· == "Resolution Bucket \n(Immediate Action)")).bind fun iImm =>
  (header.findIdx? (· == "Resolution Bucket \n(Investigatory Action)")).bind fun iInv =>
  some ⟨iType, iCode, iMnemonic, iDesc, iImm, iInv⟩

/-- The loop body of `build_catalog_entries` for one data row: pad, skip when
the type column is not exactly `"XID"`, skip when the (unstripped) code column
is empty or not all digits, otherwise build the entry. -/
def catalogRowEntry (header : List String) (cols : CatalogCols) (row : List String) :
    Option CatalogEntry :=
  if (padRow header row).getD cols.iType "" = "XID" then
    if pyIsDigitStr ((padRow header row).getD cols.iCode "") then
      some ⟨digitsToNat ((padRow header row).getD cols.iCode ""),
            pyStrip ((padRow header row).getD cols.iMnemonic ""),
            pyStrip ((padRow header row).getD cols.iDesc ""),
            pyStrip ((padRow header row).getD cols.iImm ""),
            pyStrip ((padRow header row).getD cols.iInv "")⟩
    else none
  else none

/-- The sort key order of `build_catalog_entries`: ascending code. -/
def entryLe (a b : CatalogEntry) : Prop :=
  a.code ≤ b.code

instance : DecidableRel entryLe :=
  fun a b => inferInstanceAs (Decidable (a.code ≤ b.code))

instance : IsTotal CatalogEntry entryLe :=
  ⟨fun a b => Nat.le_total a.code b.code⟩

instance : IsTrans CatalogEntry entryLe :=
  ⟨fun _ _ _ => Nat.le_trans⟩

/-- The script's `build_catalog_entries`: header row, column resolution, a
filtered pass over the data rows, then a stable sort by code. An exception
(empty grid or missing required column) is `none`. -/
def buildCatalogEntries (rows : List (List String)) : Option (List CatalogEntry) :=
  rows.head?.bind fun header =>
  (resolveCatalogCols header).bind fun cols =>
  some (List.insertionSort entryLe ((rows.drop 1).filterMap (catalogRowEntry header cols)))

/-! ## The NVLink rule builder (`build_nvlink_rules`) -/

/-- An NVLink Rule record. The last three fields are `none` exactly when the
corresponding optional column is absent from the header. -/
structure NvlinkRule where
  xid : Nat
  unit : String
  intrinfo_v1 : String
  intrinfo_v2 : String
  error_status : Int
  resolution : String
  investigatory : String
  severity : String
  action2 : Option String
  hw_sw : Option String
  local_remote : Option String
deriving DecidableEq

/-- Resolved column indices of the NVLink sheet; the optional columns carry an
optional index. -/
structure NvlinkCols where
  iXid : Nat
  iSub : Nat
  iV1 : Nat
  iV2 : Nat
  iErr : Nat
  iRes : Nat
  iA2 : Option Nat
  iInv : Nat
  iSev : Nat
  iHw : Option Nat
  iLr : Option Nat
deriving DecidableEq

/-- Column name of the subcode column. -/
def subcodeCol : String :=
  "Subcode V1(<R575)/V2(>=R575)\nV1(<R575): IntrInfo[9:5]\nV2(>=R575):IntrInfo[6:0]"

/-- Column name of the V1 interrupt-info decode column. -/
def intrV1Col : String :=
  "(V1(<R575)) IntrInfo decode for Data Center Recovery Action \nIntrInfo (binary; \"-\" user decode)"

/-- Column name of the V2 interrupt-info decode column. -/
def intrV2Col : String :=
  "(V2(>=R575)) IntrInfo decode for Data Center Recovery Action\nIntrInfo (binary; \"-\" user decode)"

/-- Column name of the severity column. -/
def severityCol : String :=
  "Severity (for items with \x27*\x27 please see Customer User Guide tab)"

/-- Column name of the optional locality column. -/
def localRemoteCol : String :=
  "Local/Remote (for items with \x27*\x27 please see Customer User Guide tab)"

/-- The required column names of the NVLink sheet (the three optional ones are
not required). -/
def nvlinkRequiredCols : List String :=
  ["Xid", subcodeCol, intrV1Col, intrV2Col, "Error Status (hex)",
   "Resolution Bucket \n(Data Center Recovery Action)",
   "Resolution Bucket \n(Investigatory Action)", severityCol]

/-- The `header.index(...)` calls of `build_nvlink_rules`, in source order;
the three optional columns use a guarded lookup that cannot fail. -/
def resolveNvlinkCols (header : List String) : Option NvlinkCols :=
  (header.findIdx? (· == "Xid")).bind fun iXid =>
  (header.findIdx? (· == subcodeCol)).bind fun iSub =>
  (header.findIdx? (· == intrV1Col)).bind fun iV1 =>
  (header.findIdx? (· == intrV2Col)).bind fun iV2 =>
  (header.findIdx? (· == "Error Status (hex)")).bind fun iErr =>
  (header.findIdx? (· == "Resolution Bucket \n(Data Center Recovery Action)")).bind fun iRes =>
  (header.findIdx? (· == "Resolution Bucket \n(Investigatory Action)")).bind fun iInv =>
  (header.findIdx? (· == severityCol)).bind fun iSev =>
  some ⟨iXid, iSub, iV1, iV2, iErr, iRes,
        header.findIdx? (· == "Action 2"), iInv, iSev,
        header.findIdx? (· == "HW/SW"), header.findIdx? (· == localRemoteCol)⟩

/-- The stripped xid cell of a padded row. -/
def nvXidStr (header : List String) (cols : NvlinkCols) (row : List String) : String :=
  pyStrip ((padRow header row).getD cols.iXid "")

/-- The stripped subcode cell of a padded row. -/
def nvSubcode (header : List String) (cols : NvlinkCols) (row : List String) : String :=
  pyStrip ((padRow header row).getD cols.iSub "")

/-- The stripped error-status cell of a padded row. -/
def nvErrCell (header : List String) (cols : NvlinkCols) (row : List String) : String :=
  pyStrip ((padRow header row).getD cols.iErr "")

/-- The error-status text actually parsed: the stripped cell, or the literal
`"0x0"` when the cell is blank (Python `... or "0x0"`). -/
def nvErrVal (header : List String) (cols : NvlinkCols) (row : List String) : String :=
  if nvErrCell header cols row = "" then "0x0" else nvErrCell header cols row

/-- The loop body of `build_nvlink_rules` for one data row: pad, skip when the
stripped xid is empty or not all digits or the stripped subcode is empty,
parse the error status as hexadecimal (skipping on `ValueError`), and build
the rule, populating each optional field only when its column exists. -/
def ruleOfRow (header : List String) (cols : NvlinkCols) (row : List String) :
    Option NvlinkRule :=
  if pyIsDigitStr (nvXidStr header cols row) && nvSubcode header cols row != "" then
    match pyIntHex (nvErrVal header cols row) with
    | none => none
    | some es =>
      some ⟨digitsToNat (nvXidStr header cols row),
            nvSubcode header cols row,
            pyStrip ((padRow header row).getD cols.iV1 ""),
            pyStrip ((padRow header row).getD cols.iV2 ""),
            es,
            pyStrip ((padRow header row).getD cols.iRes ""),
            pyStrip ((padRow header row).getD cols.iInv ""),
            pyStrip ((padRow header row).getD cols.iSev ""),
            cols.iA2.map (fun i => pyStrip ((padRow header row).getD i "")),
            cols.iHw.map (fun i => pyStrip ((padRow header row).getD i "")),
            cols.iLr.map (fun i => pyStrip ((padRow header row).getD i ""))⟩
  else none

/-- Boolean lexicographic strict order on character lists, the order Python
uses to compare strings (by code point). -/
def strLtB : List Char → List Char → Bool
  | [], [] => false
  | [], _ :: _ => true
  | _ :: _, [] => false
  | a :: as, b :: bs => a < b || (a = b && strLtB as bs)

/-- The sort key order of `build_nvlink_rules`: ascending lexicographic order
on the triple (xid, unit, error-status). -/
def ruleLe (a b : NvlinkRule) : Prop :=
  a.xid < b.xid ∨
    (a.xid = b.xid ∧
      (strLtB a.unit.data b.unit.data = true ∨
        (a.unit = b.unit ∧ a.error_status ≤ b.error_status)))

instance : DecidableRel ruleLe :=
  fun a b =>
    inferInstanceAs (Decidable (a.xid < b.xid ∨
      (a.xid = b.xid ∧
        (strLtB a.unit.data b.unit.data = true ∨
          (a.unit = b.unit ∧ a.error_status ≤ b.error_status)))))

/-- The script's `build_nvlink_rules`: header row, column resolution, a
filtered pass over the data rows, then a stable sort by
(xid, unit, error-status). -/
def buildNvlinkRules (rows : List (List String)) : Option (List NvlinkRule) :=
  rows.head?.bind fun header =>
  (resolveNvlinkCols header).bind fun cols =>
  some (List.insertionSort ruleLe ((rows.drop 1).filterMap (ruleOfRow header cols)))

/-! ## The emitter (`write_go`) -/

/-- Lowercase hexadecimal digit character for a value below 16. -/
def hexDigitChar (n : Nat) : Char :=
  if n < 10 then Char.ofNat (48 + n) else Char.ofNat (87 + n)

/-- Hexadecimal digits of `n` (most significant first), by fuelled division;
empty for zero. The fuel dominates the digit count whenever `n ≤ fuel`. -/
def natToHexRun : Nat → Nat → List Char
  | 0, _ => []
  | fuel + 1, n => if n = 0 then [] else natToHexRun fuel (n / 16) ++ [hexDigitChar (n % 16)]

/-- Lowercase hexadecimal digits of `n`, `"0"` for zero. -/
def natToHexChars (n : Nat) : List Char :=
  if n = 0 then ['0'] else natToHexRun n n

/-- Left-pad a character list with `'0'` to width `w` (no truncation). -/
def padZeros (w : Nat) (l : List Char) : List Char :=
  List.replicate (w - l.length) '0' ++ l

/-- Python `format(v, "08x")`: lowercase hexadecimal, zero-filled to total
width 8, sign-aware (a negative value keeps its minus sign and fills the
remaining 7 columns). Wider values are not truncated. -/
def pyFormat08x (v : Int) : String :=
  if v < 0 then String.mk ('-' :: padZeros 7 (natToHexChars v.natAbs))
  else String.mk (padZeros 8 (natToHexChars v.toNat))

/-- One emitted catalog entry line of `write_go`, with every field mandatory
and a fixed order. -/
def renderEntryLine (e : CatalogEntry) : String :=
  "\t\x7b" ++ "Code: " ++ toString e.code ++ ", " ++
  "Mnemonic: " ++ escape_go_string e.mnemonic ++ ", " ++
  "Description: " ++ escape_go_string e.description ++ ", " ++
  "ImmediateResolution: " ++ escape_go_string e.immediate ++ ", " ++
  "InvestigatoryResolution: " ++ escape_go_string e.investigatory ++ "," ++
  "\x7d,"

/-- The optional `Action2` suffix of a rule line: emitted only when the field
is populated (column present) and non-empty. -/
def action2Suffix (r : NvlinkRule) : String :=
  match r.action2 with
  | some s => if s = "" then "" else ", Action2: " ++ escape_go_string s
  | none => ""

/-- The optional `HwSw` suffix of a rule line. -/
def hwSwSuffix (r : NvlinkRule) : String :=
  match r.hw_sw with
  | some s => if s = "" then "" else ", HwSw: " ++ escape_go_string s
  | none => ""

/-- The optional `LocalRemote` suffix of a rule line. -/
def localRemoteSuffix (r : NvlinkRule) : String :=
  match r.local_remote with
  | some s => if s = "" then "" else ", LocalRemote: " ++ escape_go_string s
  | none => ""

/-- One emitted NVLink rule line of `write_go`: the eight mandatory fields in
fixed order, then the optional suffixes. -/
def renderRuleLine (r : NvlinkRule) : String :=
  "\t\x7b" ++ "Xid: " ++ toString r.xid ++ ", " ++
  "Unit: " ++ escape_go_string r.unit ++ ", " ++
  "IntrinfoPatternV1: " ++ escape_go_string r.intrinfo_v1 ++ ", " ++
  "IntrinfoPatternV2: " ++ escape_go_string r.intrinfo_v2 ++ ", " ++
  "ErrorStatus: 0x" ++ pyFormat08x r.error_status ++ ", " ++
  "Resolution: " ++ escape_go_string r.resolution ++ ", " ++
  "Investigatory: " ++ escape_go_string r.investigatory ++ ", " ++
  "Severity: " ++ escape_go_string r.severity ++
  action2Suffix r ++ hwSwSuffix r ++ localRemoteSuffix r ++ "\x7d,"

/-- Refinement view of one rule literal, following the spec's description:
the (field name, rendered value) pairs in emission order — the eight
mandatory fields, then each optional field only when populated and
non-empty. -/
def ruleFields (r : NvlinkRule) : List (String × String) :=
  [("Xid", toString r.xid),
   ("Unit", escape_go_string r.unit),
   ("IntrinfoPatternV1", escape_go_string r.intrinfo_v1),
   ("IntrinfoPatternV2", escape_go_string r.intrinfo_v2),
   ("ErrorStatus", "0x" ++ pyFormat08x r.error_status),
   ("Resolution", escape_go_string r.resolution),
   ("Investigatory", escape_go_string r.investigatory),
   ("Severity", escape_go_string r.severity)]
  ++ (match r.action2 with
      | some s => if s = "" then [] else [("Action2", escape_go_string s)]
      | none => [])
  ++ (match r.hw_sw with
      | some s => if s = "" then [] else [("HwSw", escape_go_string s)]
      | none => [])
  ++ (match r.local_remote with
      | some s => if s = "" then [] else [("LocalRemote", escape_go_string s)]
      | none => [])

/-- Render a field list as `name: value` pairs separated by `, `. -/
def joinFields : List (String × String) → String
  | [] => ""
  | [p] => p.1 ++ ": " ++ p.2
  | p :: ps => p.1 ++ ": " ++ p.2 ++ ", " ++ joinFields ps

/-- The lines of the generated file, in order; the timestamp (an effectful
input in the script) is the explicit first argument and reaches only the
second line. -/
def writeGoLines (ts : String) (entries : List CatalogEntry) (rules : List NvlinkRule) :
    List String :=
  ["// Code generated by gen-catalog/gen.py; DO NOT EDIT.",
   "// Generated at " ++ ts ++ ". Source: https://docs.nvidia.com/deploy/xid-errors/analyzing-xid-catalog.html",
   "",
   "package xid",
   "",
   "// catalogEntries mirrors NVIDIA\x27s XID catalog (sheet: \"Catalog\").",
   "var catalogEntries = []catalogEntry\x7b"]
  ++ entries.map renderEntryLine
  ++ ["\x7d",
      "",
      "// nvlinkRules captures the NVLink5-specific decode table (sheet: \"XID 144-150 Decode\").",
      "var nvlinkRules = []nvlinkRule\x7b"]
  ++ rules.map renderRuleLine
  ++ ["\x7d", ""]

/-- Python `"\n".join(lines)`. -/
def joinNl : List String → String
  | [] => ""
  | [l] => l
  | l :: ls => l ++ "\n" ++ joinNl ls

/-- The script's `write_go`, with the generation timestamp as an explicit
argument. -/
def write_go (ts : String) (entries : List CatalogEntry) (rules : List NvlinkRule) : String :=
  joinNl (writeGoLines ts entries rules)

/-- The data path of `main` after the two sheets are read: build both record
lists, then and only then render the output text to be written to the
destination path. A `none` models an uncaught exception: the process exits
non-zero and nothing is written. -/
def mainOutput (ts : String) (sheet1 sheet2 : List (List String)) : Option String :=
  (buildCatalogEntries sheet1).bind fun entries =>
  (buildNvlinkRules sheet2).bind fun rules =>
  some (write_go ts entries rules)

/-! ## Example fixtures used by witnesses and counterexamples -/

/-- Catalog data rows for the examples: two qualifying rows out of order,
one non-XID row, one non-digit code row. -/
def exCatRows : List (List String) :=
  [["XID", "80", " mB ", "dB", "iB", "vB"],
   ["XID", "79", "mA", "dA", "iA", "vA"],
   ["SXid", "81", "x", "x", "x", "x"],
   ["XID", "7a", "x", "x", "x", "x"]]

/-- A catalog grid whose header is exactly the required columns. -/
def exCatGrid : List (List String) :=
  catalogRequiredCols :: exCatRows

/-- The resolved catalog columns for a header equal to
`catalogRequiredCols`. -/
def exCatCols : CatalogCols :=
  ⟨0, 1, 2, 3, 4, 5⟩

/-- The resolved NVLink columns for a header equal to
`nvlinkRequiredCols` (no optional columns). -/
def exNvCols : NvlinkCols :=
  ⟨0, 1, 2, 3, 4, 5, none, 6, 7, none, none⟩

/-- An NVLink grid with a blank error status, a parsable one, a
non-parsable one, and rows out of key order. -/
def exNvGrid : List (List String) :=
  nvlinkRequiredCols ::
    [["145", "B", "v1b", "v2b", "0x1A", "rb", "ib", "sb"],
     ["144", "A", "v1a", "v2a", "", "ra", "ia", "sa"],
     ["144", "A", "v1c", "v2c", "N/A", "rc", "ic", "sc"]]

/-- An NVLink header carrying all three optional columns. -/
def exNvHdr2 : List String :=
  nvlinkRequiredCols ++ ["Action 2", "HW/SW", localRemoteCol]

/-- An NVLink grid over `exNvHdr2` with a populated Action 2 and HW/SW cell
and a blank Local/Remote cell. -/
def exNvGrid2 : List (List String) :=
  exNvHdr2 :: [["144", "A", "v1", "v2", "0x2", "r", "i", "s", "act", "HW", ""]]

/-- An NVLink grid whose error-status cell parses to a value that does not
fit in 32 bits. -/
def c6Grid : List (List String) :=
  nvlinkRequiredCols :: [["144", "PTL", "1", "2", "0x123456789", "r", "i", "s"]]

/-- A catalog grid with two distinct qualifying rows sharing the code 79. -/
def c7Grid : List (List String) :=
  catalogRequiredCols ::
    [["XID", "79", "A", "d", "i", "v"], ["XID", "79", "B", "d", "i", "v"]]

/-- A catalog grid with two qualifying rows with distinct codes. -/
def c7bGrid : List (List String) :=
  catalogRequiredCols ::
    [["XID", "80", "B", "d", "i", "v"], ["XID", "79", "A", "d", "i", "v"]]

/-! ## Helper lemmas -/

theorem strLtB_trans {x y z : List Char} (hxy : strLtB x y = true)
    (hyz : strLtB y z = true) : strLtB x z = true := by
  induction x generalizing y z with
  | nil =>
    cases y with
    | nil => simp [strLtB] at hxy
    | cons b bs =>
      cases z with
      | nil => simp [strLtB] at hyz
      | cons c cs => simp [strLtB]
  | cons a as ih =>
    cases y with
    | nil => simp [strLtB] at hxy
    | cons b bs =>
      cases z with
      | nil => simp [strLtB] at hyz
      | cons c cs =>
        simp only [strLtB, Bool.or_eq_true, Bool.and_eq_true,
          decide_eq_true_eq] at hxy hyz ⊢
        rcases hxy with h1 | ⟨h1, h1'⟩
        · rcases hyz with h2 | ⟨h2, h2'⟩
          · exact Or.inl (lt_trans h1 h2)
          · exact Or.inl (h2 ▸ h1)
        · subst h1
          rcases hyz with h2 | ⟨h2, h2'⟩
          · exact Or.inl h2
          · exact Or.inr ⟨h2, ih h1' h2'⟩

theorem strLtB_trichotomy (x : List Char) :
    ∀ y, strLtB x y = true ∨ strLtB y x = true ∨ x = y := by
  induction x with
  | nil =>
    intro y
    cases y with
    | nil => exact Or.inr (Or.inr rfl)
    | cons b bs => exact Or.inl (by simp [strLtB])
  | cons a as ih =>
    intro y
    cases y with
    | nil => exact Or.inr (Or.inl (by simp [strLtB]))
    | cons b bs =>
      rcases lt_trichotomy a b with h | h | h
      · exact Or.inl (by simp [strLtB, h])
      · subst h
        rcases ih bs with h' | h' | h'
        · exact Or.inl (by simp [strLtB, h'])
        · exact Or.inr (Or.inl (by simp [strLtB, h']))
        · exact Or.inr (Or.inr (by rw [h']))
      · exact Or.inr (Or.inl (by simp [strLtB, h]))

instance : IsTrans NvlinkRule ruleLe :=
  ⟨by
    intro a b c hab hbc
    rcases hab with h1 | ⟨e1, h1⟩
    · rcases hbc with h2 | ⟨e2, h2⟩
      · exact Or.inl (lt_trans h1 h2)
      · exact Or.inl (e2 ▸ h1)
    · rcases hbc with h2 | ⟨e2, h2⟩
      · exact Or.inl (by rw [e1]; exact h2)
      · refine Or.inr ⟨e1.trans e2, ?_⟩
        rcases h1 with s1 | ⟨u1, le1⟩
        · rcases h2 with s2 | ⟨u2, le2⟩
          · exact Or.inl (strLtB_trans s1 s2)
          · exact Or.inl (by rw [← u2]; exact s1)
        · rcases h2 with s2 | ⟨u2, le2⟩
          · exact Or.inl (by rw [u1]; exact s2)
          · exact Or.inr ⟨u1.trans u2, le_trans le1 le2⟩⟩

instance : IsTotal NvlinkRule ruleLe :=
  ⟨by
    intro a b
    rcases Nat.lt_trichotomy a.xid b.xid with h | h | h
    · exact Or.inl (Or.inl h)
    · rcases strLtB_trichotomy a.unit.data b.unit.data with s | s | s
      · exact Or.inl (Or.inr ⟨h, Or.inl s⟩)
      · exact Or.inr (Or.inr ⟨h.symm, Or.inl s⟩)
      · have hu : a.unit = b.unit := String.ext s
        rcases Int.le_total a.error_status b.error_status with le | le
        · exact Or.inl (Or.inr ⟨h, Or.inr ⟨hu, le⟩⟩)
        · exact Or.inr (Or.inr ⟨h.symm, Or.inr ⟨hu.symm, le⟩⟩)
    · exact Or.inr (Or.inl h)⟩

/-- Destructure a successful `buildCatalogEntries` run. -/
theorem buildCatalogEntries_eq_some {rows : List (List String)}
    {es : List CatalogEntry} (h : buildCatalogEntries rows = some es) :
    ∃ header cols, rows.head? = some header ∧ resolveCatalogCols header = some cols ∧
      es = List.insertionSort entryLe ((rows.drop 1).filterMap (catalogRowEntry header cols)) := by
  unfold buildCatalogEntries at h
  rw [Option.bind_eq_some] at h
  obtain ⟨header, hh, h⟩ := h
  rw [Option.bind_eq_some] at h
  obtain ⟨cols, hc, h⟩ := h
  exact ⟨header, cols, hh, hc, (Option.some.injEq _ _ ▸ h).symm⟩

/-- Destructure a successful `buildNvlinkRules` run. -/
theorem buildNvlinkRules_eq_some {rows : List (List String)}
    {rs : List NvlinkRule} (h : buildNvlinkRules rows = some rs) :
    ∃ header cols, rows.head? = some header ∧ resolveNvlinkCols header = some cols ∧
      rs = List.insertionSort ruleLe ((rows.drop 1).filterMap (ruleOfRow header cols)) := by
  unfold buildNvlinkRules at h
  rw [Option.bind_eq_some] at h
  obtain ⟨header, hh, h⟩ := h
  rw [Option.bind_eq_some] at h
  obtain ⟨cols, hc, h⟩ := h
  exact ⟨header, cols, hh, hc, (Option.some.injEq _ _ ▸ h).symm⟩

theorem replaceChar_append (pat : Char) (rep : List Char) (x y : List Char) :
    replaceChar pat rep (x ++ y) = replaceChar pat rep x ++ replaceChar pat rep y := by
  induction x with
  | nil => rfl
  | cons c cs ih => simp [replaceChar, ih]

theorem escapeChars_cons (c : Char) (cs : List Char) :
    escapeChars (c :: cs) =
      (if c = '\\' then ['\\', '\\']
       else if c = '\"' then ['\\', '\"']
       else if c = '\n' then ['\\', 'n']
       else [c]) ++ escapeChars cs := by
  unfold escapeChars
  rw [show replaceChar '\\' ['\\', '\\'] (c :: cs) =
        (if c = '\\' then ['\\', '\\'] else [c]) ++ replaceChar '\\' ['\\', '\\'] cs from rfl]
  by_cases h1 : c = '\\'
  · subst h1
    simp [replaceChar_append, replaceChar]
  · by_cases h2 : c = '\"'
    · subst h2
      simp [replaceChar_append, replaceChar]
    · by_cases h3 : c = '\n'
      · subst h3
        simp [replaceChar_append, replaceChar]
      · simp [replaceChar_append, replaceChar, h1, h2, h3]

theorem decodeBody_escapeChars (l : List Char) : decodeBody (escapeChars l) = some l := by
  induction l with
  | nil => rfl
  | cons c cs ih =>
    rw [escapeChars_cons]
    by_cases h1 : c = '\\'
    · subst h1
      simp [decodeBody, ih]
    · by_cases h2 : c = '\"'
      · subst h2
        simp [decodeBody, ih]
      · by_cases h3 : c = '\n'
        · subst h3
          simp [decodeBody, ih]
        · rw [decodeBody.eq_def]
          simp [h1, h2, h3, ih]

theorem mem_of_findIdx? (l : List String) (s : String) :
    ∀ start i, List.findIdx? (· == s) l start = some i → s ∈ l := by
  induction l with
  | nil => intro start i h; simp [List.findIdx?] at h
  | cons a t ih =>
    intro start i h
    rw [List.findIdx?_cons] at h
    by_cases hb : a == s
    · have ha : a = s := eq_of_beq hb
      subst ha
      exact List.mem_cons_self a t
    · simp only [hb, if_false] at h
      exact List.mem_cons_of_mem a (ih _ _ h)

/-- A successful catalog column resolution means every required column name
occurs in the header. -/
theorem resolveCatalogCols_mem {header : List String} {cols : CatalogCols}
    (h : resolveCatalogCols header = some cols) :
    ∀ col ∈ catalogRequiredCols, col ∈ header := by
  unfold resolveCatalogCols at h
  rw [Option.bind_eq_some] at h
  obtain ⟨i1, h1, h⟩ := h
  rw [Option.bind_eq_some] at h
  obtain ⟨i2, h2, h⟩ := h
  rw [Option.bind_eq_some] at h
  obtain ⟨i3, h3, h⟩ := h
  rw [Option.bind_eq_some] at h
  obtain ⟨i4, h4, h⟩ := h
  rw [Option.bind_eq_some] at h
  obtain ⟨i5, h5, h⟩ := h
  rw [Option.bind_eq_some] at h
  obtain ⟨i6, h6, _⟩ := h
  intro col hcol
  simp only [catalogRequiredCols, List.mem_cons, List.mem_singleton,
    List.not_mem_nil, or_false] at hcol
  rcases hcol with rfl | rfl | rfl | rfl | rfl | rfl
  · exact mem_of_findIdx? _ _ _ _ h1
  · exact mem_of_findIdx? _ _ _ _ h2
  · exact mem_of_findIdx? _ _ _ _ h3
  · exact mem_of_findIdx? _ _ _ _ h4
  · exact mem_of_findIdx? _ _ _ _ h5
  · exact mem_of_findIdx? _ _ _ _ h6

/-- A successful NVLink column resolution means every required column name
occurs in the header. -/
theorem resolveNvlinkCols_mem {header : List String} {cols : NvlinkCols}
    (h : resolveNvlinkCols header = some cols) :
    ∀ col ∈ nvlinkRequiredCols, col ∈ header := by
  unfold resolveNvlinkCols at h
  rw [Option.bind_eq_some] at h
  obtain ⟨i1, h1, h⟩ := h
  rw [Option.bind_eq_some] at h
  obtain ⟨i2, h2, h⟩ := h
  rw [Option.bind_eq_some] at h
  obtain ⟨i3, h3, h⟩ := h
  rw [Option.bind_eq_some] at h
  obtain ⟨i4, h4, h⟩ := h
  rw [Option.bind_eq_some] at h
  obtain ⟨i5, h5, h⟩ := h
  rw [Option.bind_eq_some] at h
  obtain ⟨i6, h6, h⟩ := h
  rw [Option.bind_eq_some] at h
  obtain ⟨i7, h7, h⟩ := h
  rw [Option.bind_eq_some] at h
  obtain ⟨i8, h8, _⟩ := h
  intro col hcol
  simp only [nvlinkRequiredCols, List.mem_cons, List.mem_singleton,
    List.not_mem_nil, or_false] at hcol
  rcases hcol with rfl | rfl | rfl | rfl | rfl | rfl | rfl | rfl
  · exact mem_of_findIdx? _ _ _ _ h1
  · exact mem_of_findIdx? _ _ _ _ h2
  · exact mem_of_findIdx? _ _ _ _ h3
  · exact mem_of_findIdx? _ _ _ _ h4
  · exact mem_of_findIdx? _ _ _ _ h5
  · exact mem_of_findIdx? _ _ _ _ h6
  · exact mem_of_findIdx? _ _ _ _ h7
  · exact mem_of_findIdx? _ _ _ _ h8

/-- Distinct codes among the surviving rows yield pairwise-distinct codes in
the filtered entry list. -/
theorem pairwise_code_ne_filterMap {header : List String} {cols : CatalogCols}
    {dataRows : List (List String)}
    (h : dataRows.Pairwise fun r1 r2 =>
      catalogRowEntry header cols r1 = none ∨
      (catalogRowEntry header cols r1).map (fun e => e.code) ≠
        (catalogRowEntry header cols r2).map (fun e => e.code)) :
    (dataRows.filterMap (catalogRowEntry header cols)).Pairwise
      (fun a b => a.code ≠ b.code) := by
  induction dataRows with
  | nil => exact List.Pairwise.nil
  | cons r t ih =>
    rw [List.pairwise_cons] at h
    obtain ⟨hr, ht⟩ := h
    cases hfr : catalogRowEntry header cols r with
    | none => rw [List.filterMap_cons_none hfr]; exact ih ht
    | some e =>
      rw [List.filterMap_cons_some hfr]
      refine List.Pairwise.cons ?_ (ih ht)
      intro b hb
      obtain ⟨r2, hr2, hfr2⟩ := List.mem_filterMap.mp hb
      rcases hr r2 hr2 with hnone | hne
      · rw [hfr] at hnone
        cases hnone
      · rw [hfr, hfr2] at hne
        intro hcode
        exact hne (by simp [hcode])

/-- The fuelled hex-digit expansion emits at most `k` digits when the value
is below `16 ^ k` (and within fuel). -/
theorem natToHexRun_length_le :
    ∀ (fuel n k : Nat), n ≤ fuel → n < 16 ^ k → (natToHexRun fuel n).length ≤ k := by
  intro fuel
  induction fuel with
  | zero =>
    intro n k hn _
    have : n = 0 := Nat.le_zero.mp hn
    subst this
    simp [natToHexRun]
  | succ f ih =>
    intro n k hn hk
    by_cases h0 : n = 0
    · subst h0
      simp [natToHexRun]
    · rw [natToHexRun, if_neg h0, List.length_append]
      cases k with
      | zero =>
        exfalso
        have : n < 1 := by simpa using hk
        omega
      | succ k' =>
        have hdiv_le : n / 16 ≤ f := by
          have := Nat.div_lt_self (Nat.pos_of_ne_zero h0) (by omega : (1:Nat) < 16)
          omega
        have hdiv_lt : n / 16 < 16 ^ k' := by
          apply Nat.div_lt_of_lt_mul
          rw [pow_succ] at hk
          omega
        have := ih (n / 16) k' hdiv_le hdiv_lt
        simp only [List.length_cons, List.length_nil]
        omega

/-- Every character of `hexDigitChar m` for `m < 16` is a decimal digit or a
lowercase letter between `a` and `f`. -/
theorem hexDigitChar_lower {m : Nat} (h : m < 16) :
    (hexDigitChar m).isDigit = true ∨ ('a' ≤ hexDigitChar m ∧ hexDigitChar m ≤ 'f') := by
  interval_cases m <;> decide

/-- Every character the fuelled hex-digit expansion emits is a decimal digit
or a lowercase letter between `a` and `f`. -/
theorem natToHexRun_chars :
    ∀ (fuel n : Nat), ∀ c ∈ natToHexRun fuel n,
      c.isDigit = true ∨ ('a' ≤ c ∧ c ≤ 'f') := by
  intro fuel
  induction fuel with
  | zero => intro n c hc; simp [natToHexRun] at hc
  | succ f ih =>
    intro n c hc
    by_cases h0 : n = 0
    · subst h0
      simp [natToHexRun] at hc
    · rw [natToHexRun, if_neg h0] at hc
      rcases List.mem_append.mp hc with hc' | hc'
      · exact ih _ _ hc'
      · have : c = hexDigitChar (n % 16) := by simpa using hc'
        subst this
        exact hexDigitChar_lower (Nat.mod_lt _ (by omega))

theorem findIdx?_isSome (l : List String) (s : String) :
    ∀ start, (List.findIdx? (· == s) l start).isSome = true ↔ s ∈ l := by
  induction l with
  | nil => intro start; simp [List.findIdx?]
  | cons a t ih =>
    intro start
    rw [List.findIdx?_cons]
    by_cases hb : (a == s) = true
    · rw [if_pos hb]
      have ha : a = s := eq_of_beq hb
      subst ha
      simp
    · rw [if_neg hb]
      rw [ih]
      constructor
      · exact fun h => List.mem_cons_of_mem a h
      · intro h
        rcases List.mem_cons.mp h with h' | h'
        · exact absurd (by rw [h']; exact beq_self_eq_true a : (a == s) = true) hb
        · exact h'

/-- A rule produced from a row carries exactly the optional values the
resolved optional columns provide. -/
theorem ruleOfRow_some_opts {header : List String} {cols : NvlinkCols}
    {row : List String} {r : NvlinkRule} (h : ruleOfRow header cols row = some r) :
    r.action2 = cols.iA2.map (fun i => pyStrip ((padRow header row).getD i "")) ∧
    r.hw_sw = cols.iHw.map (fun i => pyStrip ((padRow header row).getD i "")) ∧
    r.local_remote = cols.iLr.map (fun i => pyStrip ((padRow header row).getD i "")) := by
  unfold ruleOfRow at h
  by_cases hg : (pyIsDigitStr (nvXidStr header cols row) &&
      nvSubcode header cols row != "") = true
  · rw [if_pos hg] at h
    cases hph : pyIntHex (nvErrVal header cols row) <;> rw [hph] at h
    · simp at h
    · rw [Option.some.injEq] at h
      subst h
      exact ⟨rfl, rfl, rfl⟩
  · rw [if_neg hg] at h
    simp at h

/-- The optional column indices a successful NVLink resolution stores. -/
theorem resolveNvlinkCols_opts {header : List String} {cols : NvlinkCols}
    (h : resolveNvlinkCols header = some cols) :
    cols.iA2 = header.findIdx? (· == "Action 2") ∧
    cols.iHw = header.findIdx? (· == "HW/SW") ∧
    cols.iLr = header.findIdx? (· == localRemoteCol) := by
  unfold resolveNvlinkCols at h
  rw [Option.bind_eq_some] at h
  obtain ⟨i1, h1, h⟩ := h
  rw [Option.bind_eq_some] at h
  obtain ⟨i2, h2, h⟩ := h
  rw [Option.bind_eq_some] at h
  obtain ⟨i3, h3, h⟩ := h
  rw [Option.bind_eq_some] at h
  obtain ⟨i4, h4, h⟩ := h
  rw [Option.bind_eq_some] at h
  obtain ⟨i5, h5, h⟩ := h
  rw [Option.bind_eq_some] at h
  obtain ⟨i6, h6, h⟩ := h
  rw [Option.bind_eq_some] at h
  obtain ⟨i7, h7, h⟩ := h
  rw [Option.bind_eq_some] at h
  obtain ⟨i8, h8, h⟩ := h
  rw [Option.some.injEq] at h
  subst h
  exact ⟨rfl, rfl, rfl⟩

set_option maxHeartbeats 3200000 in
/-- The rendered rule line coincides with the brace-wrapped, comma-joined
field list of `ruleFields`. -/
theorem renderRuleLine_eq_joinFields (r : NvlinkRule) :
    renderRuleLine r = "\t\x7b" ++ joinFields (ruleFields r) ++ "\x7d," := by
  obtain ⟨xid, u, v1, v2, es, res, inv, sev, a2, hw, lr⟩ := r
  rcases a2 with _ | sa <;> rcases hw with _ | sh <;> rcases lr with _ | sl <;>
    simp only [renderRuleLine, ruleFields, action2Suffix, hwSwSuffix,
      localRemoteSuffix] <;>
    (try split_ifs) <;>
    simp only [List.append_nil, List.nil_append, List.cons_append,
      List.singleton_append] <;>
    simp only [joinFields] <;>
    (apply String.ext) <;>
    simp [String.data_append]

/-- The names of `ruleFields`, in order: the eight mandatory names, then
each optional name when populated and non-empty. -/
theorem ruleFields_names (r : NvlinkRule) :
    (ruleFields r).map Prod.fst =
      ["Xid", "Unit", "IntrinfoPatternV1", "IntrinfoPatternV2", "ErrorStatus",
       "Resolution", "Investigatory", "Severity"]
      ++ (match r.action2 with
          | some s => if s = "" then [] else ["Action2"]
          | none => [])
      ++ (match r.hw_sw with
          | some s => if s = "" then [] else ["HwSw"]
          | none => [])
      ++ (match r.local_remote with
          | some s => if s = "" then [] else ["LocalRemote"]
          | none => []) := by
  obtain ⟨xid, u, v1, v2, es, res, inv, sev, a2, hw, lr⟩ := r
  rcases a2 with _ | sa <;> rcases hw with _ | sh <;> rcases lr with _ | sl <;>
    simp [ruleFields] <;> (try split_ifs) <;> simp

/-- `Action2` occurs among the field names iff the optional value is
populated and non-empty. -/
theorem mem_names_action2 (r : NvlinkRule) :
    "Action2" ∈ (ruleFields r).map Prod.fst ↔
      (r.action2.isSome = true ∧ r.action2.getD "" ≠ "") := by
  rw [ruleFields_names]
  obtain ⟨xid, u, v1, v2, es, res, inv, sev, a2, hw, lr⟩ := r
  rcases a2 with _ | sa <;> rcases hw with _ | sh <;> rcases lr with _ | sl <;>
    simp <;> (try split_ifs) <;> simp_all

/-- `HwSw` occurs among the field names iff the optional value is populated
and non-empty. -/
theorem mem_names_hw_sw (r : NvlinkRule) :
    "HwSw" ∈ (ruleFields r).map Prod.fst ↔
      (r.hw_sw.isSome = true ∧ r.hw_sw.getD "" ≠ "") := by
  rw [ruleFields_names]
  obtain ⟨xid, u, v1, v2, es, res, inv, sev, a2, hw, lr⟩ := r
  rcases a2 with _ | sa <;> rcases hw with _ | sh <;> rcases lr with _ | sl <;>
    simp <;> (try split_ifs) <;> simp_all

/-- `LocalRemote` occurs among the field names iff the optional value is
populated and non-empty. -/
theorem mem_names_local_remote (r : NvlinkRule) :
    "LocalRemote" ∈ (ruleFields r).map Prod.fst ↔
      (r.local_remote.isSome = true ∧ r.local_remote.getD "" ≠ "") := by
  rw [ruleFields_names]
  obtain ⟨xid, u, v1, v2, es, res, inv, sev, a2, hw, lr⟩ := r
  rcases a2 with _ | sa <;> rcases hw with _ | sh <;> rcases lr with _ | sl <;>
    simp <;> (try split_ifs) <;> simp_all

/-- An `Option`-monad `mapM` fails whenever any element fails. -/
theorem mapM_eq_none_of_mem {α β : Type} (f : α → Option β) (l : List α)
    (x : α) (hx : x ∈ l) (hf : f x = none) : l.mapM f = none := by
  induction l with
  | nil => cases hx
  | cons a t ih =>
    rw [List.mapM_cons]
    rcases List.mem_cons.mp hx with rfl | hx'
    · simp [hf]
    · cases hfa : f a with
      | none => simp [hfa]
      | some b =>
        show (List.mapM f t).bind (fun bs => some (b :: bs)) = none
        rw [ih hx']
        rfl

/-! ## Claim theorems -/

/-- Claim C5: string escaping round-trips. `escape_go_string` replaces
backslash with double-backslash, then double-quote with backslash-quote, then
newline with backslash-`n`, and wraps the result in double quotes; decoding
the emitted literal under standard string-literal rules reproduces the
original string exactly, for every input string (in particular those
containing double quotes and newlines). -/
theorem c5_escape_roundtrip (v : String) :
    decodeGoLiteral (escape_go_string v) = some v := by
  show decodeGoLiteral (String.mk ('\"' :: (escapeChars v.data ++ ['\"']))) = some v
  rw [show decodeGoLiteral (String.mk ('\"' :: (escapeChars v.data ++ ['\"']))) =
        (if ('\"' : Char) = '\"' then
          (if (escapeChars v.data ++ ['\"']).getLast? = some '\"' then
            (decodeBody (escapeChars v.data ++ ['\"']).dropLast).map String.mk
          else none)
        else none) from rfl]
  rw [if_pos rfl, List.getLast?_concat, if_pos rfl, List.dropLast_concat,
    decodeBody_escapeChars]
  rfl

/-- Claim C1: for every input grid, the emitted Catalog Entry list is
non-decreasing by code, and the emitted NVLink Rule list is lexicographically
non-decreasing by the triple (xid, unit string, error-status):
`build_catalog_entries` sorts by code and `build_nvlink_rules` sorts by
(xid, unit, error-status) before emission. -/
theorem c1_outputs_sorted (rows1 rows2 : List (List String))
    (es : List CatalogEntry) (rs : List NvlinkRule)
    (h1 : buildCatalogEntries rows1 = some es)
    (h2 : buildNvlinkRules rows2 = some rs) :
    es.Pairwise (fun a b => a.code ≤ b.code) ∧ rs.Pairwise ruleLe := by
  obtain ⟨header1, cols1, _, _, hes⟩ := buildCatalogEntries_eq_some h1
  obtain ⟨header2, cols2, _, _, hrs⟩ := buildNvlinkRules_eq_some h2
  subst hes hrs
  exact ⟨List.sorted_insertionSort entryLe _, List.sorted_insertionSort ruleLe _⟩

/-- Witness for C1 at a concrete grid pair. -/
theorem c1_outputs_sorted_witness :
    List.Pairwise (fun a b : CatalogEntry => a.code ≤ b.code)
      [⟨79, "mA", "dA", "iA", "vA"⟩, ⟨80, "mB", "dB", "iB", "vB"⟩] ∧
    List.Pairwise ruleLe
      [⟨144, "A", "v1a", "v2a", 0, "ra", "ia", "sa", none, none, none⟩,
       ⟨145, "B", "v1b", "v2b", 26, "rb", "ib", "sb", none, none, none⟩] :=
  c1_outputs_sorted exCatGrid exNvGrid _ _ (by decide) (by decide)

/-- Claim C4: if the header row of either worksheet lacks any required
column name (exact string match), the corresponding builder fails with a
lookup error (modelled `none`), the run produces no output, and nothing is
written: `mainOutput` renders text only after both record lists build
successfully, so a `none` from either builder yields no output at all. -/
theorem c4_missing_column_aborts :
    (∀ header rest col, col ∈ catalogRequiredCols → col ∉ header →
        buildCatalogEntries (header :: rest) = none) ∧
    (∀ header rest col, col ∈ nvlinkRequiredCols → col ∉ header →
        buildNvlinkRules (header :: rest) = none) ∧
    (∀ ts s1 s2, buildCatalogEntries s1 = none ∨ buildNvlinkRules s2 = none →
        mainOutput ts s1 s2 = none) := by
  refine ⟨?_, ?_, ?_⟩
  · intro header rest col hreq hnot
    cases h : buildCatalogEntries (header :: rest) with
    | none => rfl
    | some es =>
      obtain ⟨header', cols, hh, hc, _⟩ := buildCatalogEntries_eq_some h
      rw [List.head?_cons, Option.some.injEq] at hh
      subst hh
      exact absurd (resolveCatalogCols_mem hc col hreq) hnot
  · intro header rest col hreq hnot
    cases h : buildNvlinkRules (header :: rest) with
    | none => rfl
    | some rs =>
      obtain ⟨header', cols, hh, hc, _⟩ := buildNvlinkRules_eq_some h
      rw [List.head?_cons, Option.some.injEq] at hh
      subst hh
      exact absurd (resolveNvlinkCols_mem hc col hreq) hnot
  · intro ts s1 s2 h
    unfold mainOutput
    rcases h with h | h
    · rw [h]
      rfl
    · cases hb : buildCatalogEntries s1 with
      | none => rfl
      | some es => rw [Option.some_bind, h]; rfl

/-- Witness for C4: a catalog header missing the `Code` column aborts the
build and suppresses the whole output. -/
theorem c4_missing_column_aborts_witness :
    buildCatalogEntries [["Type \n(XID)", "Mnemonic"]] = none ∧
    mainOutput "2025-01-01T00:00:00Z" [["Type \n(XID)", "Mnemonic"]] exNvGrid = none := by
  have h := c4_missing_column_aborts
  have h1 := h.1 ["Type \n(XID)", "Mnemonic"] [] "Code" (by decide) (by decide)
  exact ⟨h1, h.2.2 _ _ _ (Or.inl h1)⟩

/-- Claim C9: determinism up to the timestamp. For the same record lists,
two runs of the emitter differ at most in the single timestamp line (line
index 1): deleting that line yields identical line lists, that line is the
only place the timestamp reaches, and the rest of the output is a function
of the two record lists alone (the timestamp is the only input of `write_go`
that is not one of the record lists). -/
theorem c9_deterministic_up_to_timestamp (ts1 ts2 : String)
    (entries : List CatalogEntry) (rules : List NvlinkRule) :
    (writeGoLines ts1 entries rules).eraseIdx 1 =
      (writeGoLines ts2 entries rules).eraseIdx 1 ∧
    (writeGoLines ts1 entries rules).get? 1 =
      some ("// Generated at " ++ ts1 ++
        ". Source: https://docs.nvidia.com/deploy/xid-errors/analyzing-xid-catalog.html") ∧
    (writeGoLines ts1 entries rules).length = (writeGoLines ts2 entries rules).length ∧
    write_go ts1 entries rules = joinNl (writeGoLines ts1 entries rules) := by
  refine ⟨?_, rfl, ?_, rfl⟩
  · simp [writeGoLines, List.eraseIdx]
  · simp [writeGoLines]

/-- Claim C2: a data row of the catalog sheet yields an entry iff its type
column is exactly `"XID"` and its (unstripped) code column is non-empty and
all decimal digits; an entry is in the output iff some data row produced it
(failing rows contribute nothing); and `build_nvlink_rules` skips every row
whose stripped xid is empty or not all digits, or whose stripped subcode is
empty. -/
theorem c2_row_filtering :
    (∀ header cols row,
      (catalogRowEntry header cols row).isSome = true ↔
        ((padRow header row).getD cols.iType "" = "XID" ∧
         pyIsDigitStr ((padRow header row).getD cols.iCode "") = true)) ∧
    (∀ header cols dataRows es, resolveCatalogCols header = some cols →
      buildCatalogEntries (header :: dataRows) = some es →
      ∀ e, e ∈ es ↔ ∃ row ∈ dataRows, catalogRowEntry header cols row = some e) ∧
    (∀ header cols row, resolveNvlinkCols header = some cols →
      (pyIsDigitStr (nvXidStr header cols row) = false ∨
        nvSubcode header cols row = "") →
      ruleOfRow header cols row = none) := by
  refine ⟨?_, ?_, ?_⟩
  · intro header cols row
    unfold catalogRowEntry
    split_ifs with h1 h2
    · simp only [Option.isSome_some, true_iff]
      exact ⟨h1, h2⟩
    · exact ⟨fun h => by simp at h, fun hab => absurd hab.2 h2⟩
    · exact ⟨fun h => by simp at h, fun hab => absurd hab.1 h1⟩
  · intro header cols dataRows es hcols hbuild e
    obtain ⟨header', cols', hh, hc, hes⟩ := buildCatalogEntries_eq_some hbuild
    rw [List.head?_cons, Option.some.injEq] at hh
    subst hh
    rw [hcols, Option.some.injEq] at hc
    subst hc
    subst hes
    rw [List.mem_insertionSort]
    show e ∈ ((header :: dataRows).drop 1).filterMap (catalogRowEntry header cols) ↔ _
    rw [List.drop_one, List.tail_cons, List.mem_filterMap]
  · intro header cols row _ h
    rcases h with h | h
    · simp [ruleOfRow, h]
    · simp [ruleOfRow, h]

/-- Witness for C2: the qualifying row with code 79 appears in the output of
the example grid, and an NVLink row with a blank xid is skipped. -/
theorem c2_row_filtering_witness :
    (⟨79, "mA", "dA", "iA", "vA"⟩ : CatalogEntry) ∈
      [(⟨79, "mA", "dA", "iA", "vA"⟩ : CatalogEntry), ⟨80, "mB", "dB", "iB", "vB"⟩] ∧
    ruleOfRow nvlinkRequiredCols exNvCols ["", "A", "x", "x", "0x1", "x", "x", "x"] = none := by
  have h := c2_row_filtering
  constructor
  · exact (h.2.1 catalogRequiredCols exCatCols exCatRows _ (by decide) (by decide) _).mpr
      ⟨["XID", "79", "mA", "dA", "iA", "vA"], by decide, by decide⟩
  · exact h.2.2 nvlinkRequiredCols exNvCols _ (by decide) (Or.inl (by decide))

/-- Claim C3: for every NVLink row passing the xid/subcode checks: a blank
(stripped) error-status cell defaults to the literal `"0x0"`, giving
error-status 0; a cell that parses as hexadecimal gives exactly that value;
a cell that fails to parse drops exactly that row (`none`), and dropping
such a row leaves the rest of the run unchanged: deleting it from the grid
does not change the output of `build_nvlink_rules`. -/
theorem c3_error_status (header : List String) (cols : NvlinkCols) (row : List String)
    (hxid : pyIsDigitStr (nvXidStr header cols row) = true)
    (hsub : nvSubcode header cols row ≠ "") :
    (nvErrCell header cols row = "" →
      (ruleOfRow header cols row).map (fun r => r.error_status) = some 0) ∧
    (∀ v, nvErrCell header cols row ≠ "" →
      pyIntHex (nvErrCell header cols row) = some v →
      (ruleOfRow header cols row).map (fun r => r.error_status) = some v) ∧
    (nvErrCell header cols row ≠ "" →
      pyIntHex (nvErrCell header cols row) = none →
      ruleOfRow header cols row = none) ∧
    (∀ pre post, resolveNvlinkCols header = some cols →
      ruleOfRow header cols row = none →
      buildNvlinkRules (header :: (pre ++ row :: post)) =
        buildNvlinkRules (header :: (pre ++ post))) := by
  have hgate : (pyIsDigitStr (nvXidStr header cols row) &&
      nvSubcode header cols row != "") = true := by
    rw [hxid]
    simpa [bne_iff_ne] using hsub
  refine ⟨?_, ?_, ?_, ?_⟩
  · intro hblank
    have hv : nvErrVal header cols row = "0x0" := by
      unfold nvErrVal
      rw [if_pos hblank]
    unfold ruleOfRow
    rw [if_pos hgate, hv, show pyIntHex "0x0" = some 0 from by decide]
    rfl
  · intro v hne hv
    have hval : nvErrVal header cols row = nvErrCell header cols row := by
      unfold nvErrVal
      rw [if_neg hne]
    unfold ruleOfRow
    rw [if_pos hgate, hval, hv]
    rfl
  · intro hne hnone
    have hval : nvErrVal header cols row = nvErrCell header cols row := by
      unfold nvErrVal
      rw [if_neg hne]
    unfold ruleOfRow
    rw [if_pos hgate, hval, hnone]
  · intro pre post hcols hnone
    unfold buildNvlinkRules
    simp only [List.head?_cons, Option.some_bind, hcols, List.drop_one, List.tail_cons,
      List.filterMap_append, List.filterMap_cons_none hnone]

/-- Witness for C3 at the example grid: blank cell gives status 0, `"0x1A"`
gives 26, `"N/A"` drops the row, and deleting the `"N/A"` row leaves the
output unchanged. -/
theorem c3_error_status_witness :
    ((ruleOfRow nvlinkRequiredCols exNvCols
        ["144", "A", "v1a", "v2a", "", "ra", "ia", "sa"]).map
      (fun r => r.error_status) = some 0) ∧
    ((ruleOfRow nvlinkRequiredCols exNvCols
        ["145", "B", "v1b", "v2b", "0x1A", "rb", "ib", "sb"]).map
      (fun r => r.error_status) = some 26) ∧
    (ruleOfRow nvlinkRequiredCols exNvCols
        ["144", "A", "v1c", "v2c", "N/A", "rc", "ic", "sc"] = none) ∧
    buildNvlinkRules exNvGrid =
      buildNvlinkRules (nvlinkRequiredCols ::
        [["145", "B", "v1b", "v2b", "0x1A", "rb", "ib", "sb"],
         ["144", "A", "v1a", "v2a", "", "ra", "ia", "sa"]]) := by
  have hblank := (c3_error_status nvlinkRequiredCols exNvCols
    ["144", "A", "v1a", "v2a", "", "ra", "ia", "sa"] (by decide) (by decide)).1 (by decide)
  have hhex := (c3_error_status nvlinkRequiredCols exNvCols
    ["145", "B", "v1b", "v2b", "0x1A", "rb", "ib", "sb"] (by decide) (by decide)).2.1
    26 (by decide) (by decide)
  have hc3 := c3_error_status nvlinkRequiredCols exNvCols
    ["144", "A", "v1c", "v2c", "N/A", "rc", "ic", "sc"] (by decide) (by decide)
  have hna := hc3.2.2.1 (by decide) (by decide)
  refine ⟨hblank, hhex, hna, ?_⟩
  exact hc3.2.2.2
    [["145", "B", "v1b", "v2b", "0x1A", "rb", "ib", "sb"],
     ["144", "A", "v1a", "v2a", "", "ra", "ia", "sa"]] [] (by decide) hna

/-- Counterexample to claim C7 as stated: nothing deduplicates codes, so two
distinct qualifying rows sharing code 79 produce two distinct entries with
equal codes. -/
theorem c7_counterexample :
    buildCatalogEntries c7Grid =
      some [⟨79, "A", "d", "i", "v"⟩, ⟨79, "B", "d", "i", "v"⟩] ∧
    (⟨79, "A", "d", "i", "v"⟩ : CatalogEntry) ≠ ⟨79, "B", "d", "i", "v"⟩ ∧
    (⟨79, "A", "d", "i", "v"⟩ : CatalogEntry).code =
      (⟨79, "B", "d", "i", "v"⟩ : CatalogEntry).code :=
  ⟨by decide, by decide, rfl⟩

/-- Claim C7 amended: `build_catalog_entries` does not enforce uniqueness;
codes of distinct output entries differ provided no two qualifying input
rows produce the same code. Under that hypothesis every pair of entries at
distinct positions has distinct codes. -/
theorem c7_amended (header : List String) (cols : CatalogCols)
    (dataRows : List (List String)) (es : List CatalogEntry)
    (hcols : resolveCatalogCols header = some cols)
    (hbuild : buildCatalogEntries (header :: dataRows) = some es)
    (hdist : dataRows.Pairwise fun r1 r2 =>
      catalogRowEntry header cols r1 = none ∨
      (catalogRowEntry header cols r1).map (fun e => e.code) ≠
        (catalogRowEntry header cols r2).map (fun e => e.code)) :
    es.Pairwise fun a b => a.code ≠ b.code := by
  obtain ⟨header', cols', hh, hc, hes⟩ := buildCatalogEntries_eq_some hbuild
  rw [List.head?_cons, Option.some.injEq] at hh
  subst hh
  rw [hcols, Option.some.injEq] at hc
  subst hc
  subst hes
  have hperm := List.perm_insertionSort entryLe
    (((header :: dataRows).drop 1).filterMap (catalogRowEntry header cols))
  refine (List.Perm.pairwise_iff (fun hxy => Ne.symm hxy) hperm).mpr ?_
  show List.Pairwise _ (((header :: dataRows).drop 1).filterMap (catalogRowEntry header cols))
  rw [List.drop_one, List.tail_cons]
  exact pairwise_code_ne_filterMap hdist

/-- Witness for the amended C7 on a grid with distinct codes. -/
theorem c7_amended_witness :
    List.Pairwise (fun a b : CatalogEntry => a.code ≠ b.code)
      [⟨79, "A", "d", "i", "v"⟩, ⟨80, "B", "d", "i", "v"⟩] :=
  c7_amended catalogRequiredCols exCatCols
    [["XID", "80", "B", "d", "i", "v"], ["XID", "79", "A", "d", "i", "v"]]
    [⟨79, "A", "d", "i", "v"⟩, ⟨80, "B", "d", "i", "v"⟩]
    (by decide) (by decide) (by decide)

/-- Counterexample to claim C6 as stated: the hex parser does not restrict
values to 32 bits. The cell `"0x123456789"` yields an emitted rule whose
error-status exceeds `2 ^ 32 - 1`, and `format(_, "08x")` renders it with 9
digits, not 8. -/
theorem c6_counterexample :
    buildNvlinkRules c6Grid =
      some [⟨144, "PTL", "1", "2", 4886718345, "r", "i", "s", none, none, none⟩] ∧
    ¬ ((4886718345 : Int) < 2 ^ 32) ∧
    (pyFormat08x 4886718345).length = 9 :=
  ⟨by decide, by decide, by decide⟩

/-- Claim C6 amended: the parser itself does not restrict the error-status to
32 bits; for every emitted rule whose error-status value lies in
`[0, 2 ^ 32)`, the emitter's format renders it as exactly 8 zero-padded
characters, each a decimal digit or a lowercase hex letter. -/
theorem c6_amended (rows : List (List String)) (rs : List NvlinkRule)
    (r : NvlinkRule) (_hb : buildNvlinkRules rows = some rs) (_hr : r ∈ rs)
    (h0 : 0 ≤ r.error_status) (h32 : r.error_status < 2 ^ 32) :
    (pyFormat08x r.error_status).length = 8 ∧
    ∀ c ∈ (pyFormat08x r.error_status).data,
      c.isDigit = true ∨ ('a' ≤ c ∧ c ≤ 'f') := by
  obtain ⟨n, hn⟩ := Int.eq_ofNat_of_zero_le h0
  rw [hn]
  have hlt : n < 2 ^ 32 := by
    rw [hn] at h32
    exact_mod_cast h32
  have hpow : n < 16 ^ 8 := by
    have : (16:Nat) ^ 8 = 2 ^ 32 := by norm_num
    omega
  have hchars : ∀ c ∈ natToHexChars n, c.isDigit = true ∨ ('a' ≤ c ∧ c ≤ 'f') := by
    intro c hc
    unfold natToHexChars at hc
    by_cases hz : n = 0
    · rw [if_pos hz] at hc
      have : c = '0' := by simpa using hc
      subst this
      exact Or.inl (by decide)
    · rw [if_neg hz] at hc
      exact natToHexRun_chars n n c hc
  have hlen : (natToHexChars n).length ≤ 8 := by
    unfold natToHexChars
    by_cases hz : n = 0
    · rw [if_pos hz]
      decide
    · rw [if_neg hz]
      exact natToHexRun_length_le n n 8 (le_refl n) hpow
  have hneg : ¬ ((n : Int) < 0) := Int.not_lt.mpr (Int.natCast_nonneg n)
  have hform : pyFormat08x (n : Int) = String.mk (padZeros 8 (natToHexChars n)) := by
    unfold pyFormat08x
    rw [if_neg hneg, Int.toNat_ofNat]
  rw [hform]
  constructor
  · show (padZeros 8 (natToHexChars n)).length = 8
    simp only [padZeros, List.length_append, List.length_replicate]
    omega
  · intro c hc
    rcases List.mem_append.mp hc with hc' | hc'
    · have : c = '0' := (List.mem_replicate.mp hc').2
      subst this
      exact Or.inl (by decide)
    · exact hchars c hc'

/-- Witness for the amended C6: the `"0x1A"` rule renders as 8 hex
characters. -/
theorem c6_amended_witness :
    (pyFormat08x (⟨145, "B", "v1b", "v2b", 26, "rb", "ib", "sb", none, none,
        none⟩ : NvlinkRule).error_status).length = 8 ∧
    ∀ c ∈ (pyFormat08x (⟨145, "B", "v1b", "v2b", 26, "rb", "ib", "sb", none,
        none, none⟩ : NvlinkRule).error_status).data,
      c.isDigit = true ∨ ('a' ≤ c ∧ c ≤ 'f') :=
  c6_amended exNvGrid
    [⟨144, "A", "v1a", "v2a", 0, "ra", "ia", "sa", none, none, none⟩,
     ⟨145, "B", "v1b", "v2b", 26, "rb", "ib", "sb", none, none, none⟩]
    ⟨145, "B", "v1b", "v2b", 26, "rb", "ib", "sb", none, none, none⟩
    (by decide) (by decide) (by decide) (by decide)

/-- Claim C8: every emitted rule literal is the brace-wrapped, comma-joined
field list whose first eight names are the mandatory fields in fixed order
(Xid, Unit, IntrinfoPatternV1, IntrinfoPatternV2, ErrorStatus, Resolution,
Investigatory, Severity), and each optional field name (Action2, HwSw,
LocalRemote) appears iff its column is present in the header and the
row's stripped value stored for it is non-empty — a missing optional
column makes the field absent from every literal, never present-but-empty. -/
theorem c8_field_layout (header : List String) (dataRows : List (List String))
    (cols : NvlinkCols) (rs : List NvlinkRule) (r : NvlinkRule)
    (hcols : resolveNvlinkCols header = some cols)
    (hbuild : buildNvlinkRules (header :: dataRows) = some rs)
    (hr : r ∈ rs) :
    renderRuleLine r = "\t\x7b" ++ joinFields (ruleFields r) ++ "\x7d," ∧
    ((ruleFields r).map Prod.fst).take 8 =
      ["Xid", "Unit", "IntrinfoPatternV1", "IntrinfoPatternV2", "ErrorStatus",
       "Resolution", "Investigatory", "Severity"] ∧
    ("Action2" ∈ (ruleFields r).map Prod.fst ↔
      ("Action 2" ∈ header ∧ r.action2.getD "" ≠ "")) ∧
    ("HwSw" ∈ (ruleFields r).map Prod.fst ↔
      ("HW/SW" ∈ header ∧ r.hw_sw.getD "" ≠ "")) ∧
    ("LocalRemote" ∈ (ruleFields r).map Prod.fst ↔
      (localRemoteCol ∈ header ∧ r.local_remote.getD "" ≠ "")) := by
  obtain ⟨header', cols', hh, hc, hrs⟩ := buildNvlinkRules_eq_some hbuild
  rw [List.head?_cons, Option.some.injEq] at hh
  subst hh
  rw [hcols, Option.some.injEq] at hc
  subst hc
  subst hrs
  rw [List.mem_insertionSort] at hr
  obtain ⟨row, _, hsome⟩ := List.mem_filterMap.mp hr
  obtain ⟨ha2, hhw, hlr⟩ := ruleOfRow_some_opts hsome
  obtain ⟨oa2, ohw, olr⟩ := resolveNvlinkCols_opts hcols
  have hA2mem : r.action2.isSome = true ↔ "Action 2" ∈ header := by
    rw [ha2, oa2, show (Option.map _ (header.findIdx? (· == "Action 2"))).isSome =
        (header.findIdx? (· == "Action 2")).isSome from Option.isSome_map]
    exact findIdx?_isSome header "Action 2" 0
  have hHwmem : r.hw_sw.isSome = true ↔ "HW/SW" ∈ header := by
    rw [hhw, ohw, show (Option.map _ (header.findIdx? (· == "HW/SW"))).isSome =
        (header.findIdx? (· == "HW/SW")).isSome from Option.isSome_map]
    exact findIdx?_isSome header "HW/SW" 0
  have hLrmem : r.local_remote.isSome = true ↔ localRemoteCol ∈ header := by
    rw [hlr, olr, show (Option.map _ (header.findIdx? (· == localRemoteCol))).isSome =
        (header.findIdx? (· == localRemoteCol)).isSome from Option.isSome_map]
    exact findIdx?_isSome header localRemoteCol 0
  refine ⟨renderRuleLine_eq_joinFields r, ?_, ?_, ?_, ?_⟩
  · rw [ruleFields_names, List.append_assoc, List.append_assoc]
    exact List.take_left' rfl
  · rw [mem_names_action2]
    exact and_congr_left' hA2mem
  · rw [mem_names_hw_sw]
    exact and_congr_left' hHwmem
  · rw [mem_names_local_remote]
    exact and_congr_left' hLrmem

/-- Witness for C8 at a grid carrying all three optional columns, whose
single rule populates Action 2 and HW/SW but has a blank Local/Remote
cell. -/
theorem c8_field_layout_witness :
    (renderRuleLine ⟨144, "A", "v1", "v2", 2, "r", "i", "s", some "act",
        some "HW", some ""⟩ =
      "\t\x7b" ++ joinFields (ruleFields ⟨144, "A", "v1", "v2", 2, "r", "i",
        "s", some "act", some "HW", some ""⟩) ++ "\x7d,") ∧
    "Action2" ∈ (ruleFields ⟨144, "A", "v1", "v2", 2, "r", "i", "s",
      some "act", some "HW", some ""⟩).map Prod.fst ∧
    "LocalRemote" ∉ (ruleFields ⟨144, "A", "v1", "v2", 2, "r", "i", "s",
      some "act", some "HW", some ""⟩).map Prod.fst := by
  have h := c8_field_layout exNvHdr2 [["144", "A", "v1", "v2", "0x2", "r",
      "i", "s", "act", "HW", ""]]
    ⟨0, 1, 2, 3, 4, 5, some 8, 6, 7, some 9, some 10⟩
    [⟨144, "A", "v1", "v2", 2, "r", "i", "s", some "act", some "HW", some ""⟩]
    ⟨144, "A", "v1", "v2", 2, "r", "i", "s", some "act", some "HW", some ""⟩
    (by decide) (by decide) (by decide)
  refine ⟨h.1, h.2.2.1.mpr ⟨by decide, by decide⟩, ?_⟩
  intro hmem
  exact absurd ((h.2.2.2.2.mp hmem).2) (by decide)

/-- Claim C10: `read_sheet` aborts the whole run rather than skipping a
malformed cell: a cell typed as a shared-string reference whose value fails
the unguarded `int` parse and table lookup (non-numeric or `None` text, or
an index outside the table under Python indexing) raises out of
`read_sheet` (modelled `none`), so such a cell is never silently dropped or
replaced by an empty string. -/
theorem c10_shared_string_abort (shared : List String)
    (sheet : List (List SheetCell)) (row : List SheetCell) (c : SheetCell)
    (vt : Option String) (hrow : row ∈ sheet) (hc : c ∈ row)
    (ht : c.t = some "s") (hv : c.v = some vt)
    (hfail : sharedLookup shared vt = none) :
    readSheet shared sheet = none := by
  have hcell : readCell shared c = none := by
    unfold readCell
    rw [hv]
    show (if c.t = some "s" then sharedLookup shared vt
          else some (vt.getD "")) = none
    rw [if_pos ht]
    exact hfail
  have hrowN : readRow shared row = none :=
    mapM_eq_none_of_mem _ _ _ hc hcell
  unfold readSheet
  rw [mapM_eq_none_of_mem _ _ _ hrow hrowN]
  rfl

/-- Witness for C10: index 5 is outside a one-element shared-string table,
and the whole sheet read fails. -/
theorem c10_shared_string_abort_witness :
    readSheet ["hello"] [[⟨some "s", some (some "5")⟩]] = none :=
  c10_shared_string_abort ["hello"] [[⟨some "s", some (some "5")⟩]]
    [⟨some "s", some (some "5")⟩] ⟨some "s", some (some "5")⟩ (some "5")
    (by decide) (by decide) rfl rfl (by decide)

end XidGen
